import Mathlib

/-!
Verification development for the fire-detection application
(`fire_project_10052025.py`).

The program is a single-script detection loop: it loads a YOLO model,
opens a camera, then repeatedly reads a frame, runs inference, classifies
fire from the detected class ids, and gates an asynchronous alert behind a
cooldown.  We embed the deterministic control flow of the script as Lean
functions.  External effects (the camera device, the YOLO model, the wall
clock, the user's stop button) are environment inputs: each loop iteration
is driven by an `IterInput` record saying what the environment did at that
iteration (stop-flag value at the `while` check, `cap.isOpened()`, the
`ret` result of `cap.read()`, whether a re-`open` would succeed, the
detections produced by the model, and the value `time.time()` would
return).  Timestamps are embedded as `Int` (the source compares floats
with `-` and `>` only; the comparisons transfer verbatim).
-/

/-- One detection produced by the model: `box.cls`, `box.conf`, and the
bounding-box geometry (never inspected by the classifier). -/
structure Detection where
  class_id : Int
  confidence : ℚ
  bbox : Int × Int × Int × Int
deriving DecidableEq, Repr

/-- `FIRE_CLASSES = [25, 26, 27]` (line 32 of the source). -/
def FIRE_CLASSES : List Int := [25, 26, 27]

/-- Line 101: `any(int(box.cls) in FIRE_CLASSES for box in results[0].boxes)`,
parametrised by the fire class list as the spec's `is_fire` contract does. -/
def fire_detected (dets : List Detection) (fire_class_set : List Int) : Bool :=
  dets.any (fun d => fire_class_set.contains d.class_id)

/-- The alert state carried by the loop: `last_alert_time` (line 84),
the sidebar `alert_cooldown` and `enable_alerts` settings. -/
structure AlertState where
  last_alert_time : Int
  cooldown_seconds : Int
  alerts_enabled : Bool
deriving DecidableEq, Repr

/-- Lines 103-108 of the source, factored as the spec's `maybe_alert`
contract: inside `if fire_detected:`, the gate
`if enable_alerts and (current_time - last_alert_time) > alert_cooldown:`
starts the alert thread and sets `last_alert_time = current_time`. -/
def maybe_alert (fire : Bool) (now : Int) (s : AlertState) : Bool × AlertState :=
  if fire then
    if s.alerts_enabled = true ∧ now - s.last_alert_time > s.cooldown_seconds then
      (true, ⟨now, s.cooldown_seconds, s.alerts_enabled⟩)
    else
      (false, s)
  else
    (false, s)

/-- Sidebar configuration, fixed for the duration of one script run:
whether a camera source is configured (`Webcam`, or `IP Camera` with a
non-empty URL), the confidence slider, and the alert options. -/
structure Config where
  source_configured : Bool
  conf_threshold : ℚ
  enable_alerts : Bool
  alert_cooldown : Int
deriving DecidableEq, Repr

/-- User-visible outputs: the `status_text` placeholder messages, the
`st.error` from `load_model` / `init_camera`, the post-loop `st.success`,
and the `st.warning` of the `else` branch at line 118. -/
inductive Status where
  | reconnecting   -- "Camera feed lost. Reconnecting..." (line 89)
  | fireAlarm      -- "FIRE DETECTED! Please evacuate!" (line 104)
  | noFire         -- "No fire detected" (line 110)
  | initFailed     -- "Failed to initialize camera!" (line 64)
  | modelLoadError -- "Failed to load model" (line 28)
  | stopped        -- "Detection stopped." (line 115)
  | configWarning  -- "Please configure a valid camera source" (line 118)
deriving DecidableEq, Repr

/-- What the environment does at one loop iteration. -/
structure IterInput where
  stop : Bool            -- session_state stop_detection at the while check
  capOpen : Bool         -- cap.isOpened() at the while check
  readOk : Bool          -- ret from cap.read()
  reopenOk : Bool        -- would cv2.VideoCapture succeed if reopened now
  dets : List Detection  -- model(frame) boxes (used only when readOk)
  now : Int              -- time.time() (read only when fire is detected)
deriving DecidableEq, Repr

/-- `init_camera` (lines 55-66): returns `None` when no source is
configured; otherwise creates a capture, and if it is not opened emits
the `st.error` and returns `None`.  Handles are modelled as fresh `Nat`
tokens so that acquisition/release can be audited. -/
def init_camera (cfg : Config) (openOk : Bool) (fresh : Nat) :
    Option Nat × List Status :=
  if cfg.source_configured then
    if openOk then (some fresh, []) else (none, [Status.initFailed])
  else
    (none, [])

/-- `load_model` (lines 22-29): on exception, `st.error` once and `None`. -/
def load_model (ok : Bool) : Option Unit × List Status :=
  if ok then (some (), []) else (none, [Status.modelLoadError])

/-- How the while loop left (or did not leave). -/
inductive ExitKind where
  | outOfScript  -- the environment script ran out: the loop was still running
  | exited       -- while condition became false: cap.release(); success message
  | crashed      -- reopen failed: break, then cap.release() on None raises
deriving DecidableEq, Repr

/-- Observable outcome of running the while loop (lines 86-115) on a
script of iteration inputs. `alerts` records, in dispatch order, the
`current_time` at which each alert thread was started (the same value
stored into `last_alert_time`). `opened`/`released` audit capture
handles; `releaseOnNone` records a `cap.release()` attempted while
`cap` is `None` (an `AttributeError` in the source). `backoffSecs`
accumulates the `time.sleep(2)` backoff waits. -/
structure LoopResult where
  statuses : List Status
  alerts : List Int
  frameReads : Nat
  inferences : Nat
  backoffs : Nat
  backoffSecs : Nat
  opened : List Nat
  released : List Nat
  releaseOnNone : Bool
  exit : ExitKind
deriving DecidableEq, Repr

/-- The while loop, lines 86-115 of the source, one `IterInput` per
iteration.  `while cap.isOpened() and not stop:`; on read failure,
warn + sleep(2) + `cap = init_camera()`, `break` if that returned
`None`, else `continue`; on read success, inference, display, the fire
classifier (line 101) and the cooldown-gated alert (lines 103-110).
After the loop, `cap.release()` and the success message (lines
114-115) — which raises on the `break` path, where `cap` is `None`. -/
def runLoop (cfg : Config) (script : List IterInput) (cap : Nat) (last : Int)
    (fresh : Nat) : LoopResult :=
  match script with
  | [] => ⟨[], [], 0, 0, 0, 0, [], [], false, ExitKind.outOfScript⟩
  | i :: rest =>
    if !i.capOpen || i.stop then
      -- while condition false: fall through to cap.release(); st.success
      ⟨[Status.stopped], [], 0, 0, 0, 0, [], [cap], false, ExitKind.exited⟩
    else if i.readOk then
      -- lines 96-112: inference, classification, alert policy, display
      let fire := fire_detected i.dets FIRE_CLASSES
      let pr := maybe_alert fire i.now ⟨last, cfg.alert_cooldown, cfg.enable_alerts⟩
      let r := runLoop cfg rest cap pr.2.last_alert_time fresh
      ⟨(if fire then Status.fireAlarm else Status.noFire) :: r.statuses,
       (if pr.1 then [i.now] else []) ++ r.alerts,
       1 + r.frameReads, 1 + r.inferences, r.backoffs, r.backoffSecs,
       r.opened, r.released, r.releaseOnNone, r.exit⟩
    else
      -- lines 88-94: warn, sleep(2), reopen; the old handle is dropped
      match init_camera cfg i.reopenOk fresh with
      | (none, msgs) =>
        -- break; post-loop cap.release() hits None
        ⟨Status.reconnecting :: msgs, [], 1, 0, 1, 2, [], [], true,
         ExitKind.crashed⟩
      | (some h, msgs) =>
        let r := runLoop cfg rest h last (fresh + 1)
        ⟨Status.reconnecting :: (msgs ++ r.statuses), r.alerts,
         1 + r.frameReads, r.inferences, 1 + r.backoffs, 2 + r.backoffSecs,
         h :: r.opened, r.released, r.releaseOnNone, r.exit⟩

/-- Outcome of one whole script run (lines 22-118). `exitInfo` is `none`
when the main loop was never entered. -/
structure ProgramResult where
  statuses : List Status
  alerts : List Int
  frameReads : Nat
  inferences : Nat
  backoffs : Nat
  backoffSecs : Nat
  opened : List Nat
  released : List Nat
  releaseOnNone : Bool
  loopEntered : Bool
  exitInfo : Option ExitKind
deriving DecidableEq, Repr

/-- The whole script: `model = load_model()` (line 31),
`cap = init_camera()` (line 68), then
`if cap and model and not st.session_state["stop_detection"]:` enter the
loop with `last_alert_time = 0` (lines 83-84), `else:` the config
warning (line 118). -/
def runProgram (cfg : Config) (modelOk : Bool) (openOk : Bool)
    (initialStop : Bool) (script : List IterInput) : ProgramResult :=
  let m := load_model modelOk
  let c := init_camera cfg openOk 0
  match c.1, m.1 with
  | some h, some _ =>
    if initialStop then
      ⟨m.2 ++ c.2 ++ [Status.configWarning], [], 0, 0, 0, 0, [h], [],
       false, false, none⟩
    else
      let r := runLoop cfg script h 0 (h + 1)
      ⟨m.2 ++ c.2 ++ r.statuses, r.alerts, r.frameReads, r.inferences,
       r.backoffs, r.backoffSecs, h :: r.opened, r.released,
       r.releaseOnNone, true, some r.exit⟩
  | some h, none =>
    ⟨m.2 ++ c.2 ++ [Status.configWarning], [], 0, 0, 0, 0, [h], [],
     false, false, none⟩
  | none, _ =>
    ⟨m.2 ++ c.2 ++ [Status.configWarning], [], 0, 0, 0, 0, [], [],
     false, false, none⟩

/-! ## Helper lemmas about the alert policy and the classifier -/

lemma maybe_alert_false (now : Int) (s : AlertState) :
    maybe_alert false now s = (false, s) := rfl

lemma maybe_alert_fires {now : Int} {s : AlertState}
    (he : s.alerts_enabled = true)
    (hgt : now - s.last_alert_time > s.cooldown_seconds) :
    maybe_alert true now s = (true, ⟨now, s.cooldown_seconds, s.alerts_enabled⟩) := by
  simp [maybe_alert, he, hgt]

lemma maybe_alert_fst_true {fire : Bool} {now : Int} {s : AlertState}
    (h : (maybe_alert fire now s).1 = true) :
    now - s.last_alert_time > s.cooldown_seconds ∧
      (maybe_alert fire now s).2.last_alert_time = now := by
  cases fire with
  | false => simp [maybe_alert] at h
  | true =>
    by_cases hc : s.alerts_enabled = true ∧ now - s.last_alert_time > s.cooldown_seconds
    · simp [maybe_alert, hc]
    · simp [maybe_alert, hc] at h

lemma maybe_alert_fst_false {fire : Bool} {now : Int} {s : AlertState}
    (h : (maybe_alert fire now s).1 = false) :
    (maybe_alert fire now s).2 = s := by
  cases fire with
  | false => rfl
  | true =>
    by_cases hc : s.alerts_enabled = true ∧ now - s.last_alert_time > s.cooldown_seconds
    · simp [maybe_alert, hc] at h
    · simp [maybe_alert, hc]

lemma fire_detected_eq_map (dets : List Detection) (fs : List Int) :
    fire_detected dets fs =
      (dets.map Detection.class_id).any (fun c => fs.contains c) := by
  induction dets with
  | nil => rfl
  | cons d t ih =>
    simp only [fire_detected, List.map_cons, List.any_cons] at *
    rw [ih]

/-! ## Claim theorems (alert policy, classifier) -/

/-- C2: for every input, the alert policy dispatches no alert and leaves
the state unchanged when fire is absent, alerts are disabled, or
`now - last_alert_time ≤ cooldown_seconds`; it dispatches and sets
`last_alert_time = now` when fire is present, alerts are enabled, and
`now - last_alert_time > cooldown_seconds`.  In particular the spec's
scenario: with `last_alert_time = 0` and `cooldown_seconds = 60`, a fire
at `now = 100` alerts and updates the state, a fire at `now = 130` is
suppressed, and a fire at `now = 170` alerts again. -/
theorem alert_policy_spec :
    (∀ (fire : Bool) (now : Int) (s : AlertState),
        ((fire = false ∨ s.alerts_enabled = false ∨
            now - s.last_alert_time ≤ s.cooldown_seconds) →
          maybe_alert fire now s = (false, s)) ∧
        (fire = true → s.alerts_enabled = true →
          now - s.last_alert_time > s.cooldown_seconds →
          maybe_alert fire now s =
            (true, ⟨now, s.cooldown_seconds, s.alerts_enabled⟩))) ∧
    maybe_alert true 100 ⟨0, 60, true⟩ = (true, ⟨100, 60, true⟩) ∧
    maybe_alert true 130 ⟨100, 60, true⟩ = (false, ⟨100, 60, true⟩) ∧
    maybe_alert true 170 ⟨100, 60, true⟩ = (true, ⟨170, 60, true⟩) := by
  refine ⟨fun fire now s => ⟨fun h => ?_, fun hf he hgt => ?_⟩,
    by decide, by decide, by decide⟩
  · cases fire with
    | false => rfl
    | true =>
      have hc : ¬(s.alerts_enabled = true ∧
          now - s.last_alert_time > s.cooldown_seconds) := by
        rcases h with h | h | h
        · cases h
        · intro hc; rw [h] at hc; exact absurd hc.1 (by simp)
        · intro hc; omega
      simp [maybe_alert, hc]
  · subst hf
    simp [maybe_alert, he, hgt]

/-- Closed witness for `alert_policy_spec`: a suppressed call and a
dispatched call at concrete inputs. -/
theorem alert_policy_spec_witness :
    maybe_alert false 5 ⟨0, 60, true⟩ = (false, ⟨0, 60, true⟩) ∧
    maybe_alert true 200 ⟨0, 60, true⟩ = (true, ⟨200, 60, true⟩) :=
  ⟨(alert_policy_spec.1 false 5 ⟨0, 60, true⟩).1 (Or.inl rfl),
   (alert_policy_spec.1 true 200 ⟨0, 60, true⟩).2 rfl rfl (by decide)⟩

/-- C3: the fire classifier is pure in the detections and the fire class
set: it returns true iff some detection's class id is in the set, is
false on the empty sequence, and depends only on the class ids (never on
confidence or bounding box). -/
theorem fire_classifier_spec :
    (∀ (dets : List Detection) (fs : List Int),
        fire_detected dets fs = true ↔ ∃ d ∈ dets, d.class_id ∈ fs) ∧
    (∀ fs : List Int, fire_detected [] fs = false) ∧
    (∀ (d1 d2 : List Detection) (fs : List Int),
        d1.map Detection.class_id = d2.map Detection.class_id →
        fire_detected d1 fs = fire_detected d2 fs) := by
  refine ⟨fun dets fs => ?_, fun fs => rfl, fun d1 d2 fs h => ?_⟩
  · simp [fire_detected, List.any_eq_true]
  · rw [fire_detected_eq_map, fire_detected_eq_map, h]

/-- Closed witness for `fire_classifier_spec`: two detection lists with
the same class ids but different confidences and boxes classify alike. -/
theorem fire_classifier_spec_witness :
    fire_detected [⟨26, 7/10, (0, 0, 4, 4)⟩] FIRE_CLASSES =
      fire_detected [⟨26, 1/2, (9, 9, 2, 2)⟩] FIRE_CLASSES :=
  fire_classifier_spec.2.2 _ _ _ rfl

/-! ## Step equations for the loop -/

/-- An iteration at which the environment lets the loop proceed
normally: the capture reports open, the stop flag is clear, and the
frame read succeeds. -/
def goodIter (i : IterInput) : Prop :=
  i.capOpen = true ∧ i.stop = false ∧ i.readOk = true

instance (i : IterInput) : Decidable (goodIter i) := by
  unfold goodIter; infer_instance

lemma runLoop_cons_exit {i : IterInput} (h : i.capOpen = false ∨ i.stop = true)
    (cfg : Config) (rest : List IterInput) (c : Nat) (t : Int) (f : Nat) :
    runLoop cfg (i :: rest) c t f =
      ⟨[Status.stopped], [], 0, 0, 0, 0, [], [c], false, ExitKind.exited⟩ := by
  rcases h with h | h <;> simp [runLoop, h]

/-- Whether the iteration `i`, entered with `last_alert_time = t`,
starts an alert thread. -/
def didAlert (cfg : Config) (i : IterInput) (t : Int) : Bool :=
  (maybe_alert (fire_detected i.dets FIRE_CLASSES) i.now
    ⟨t, cfg.alert_cooldown, cfg.enable_alerts⟩).1

/-- The value of `last_alert_time` after the iteration `i`, entered with
`last_alert_time = t`. -/
def nextLast (cfg : Config) (i : IterInput) (t : Int) : Int :=
  (maybe_alert (fire_detected i.dets FIRE_CLASSES) i.now
    ⟨t, cfg.alert_cooldown, cfg.enable_alerts⟩).2.last_alert_time

lemma runLoop_cons_good {i : IterInput} (h : goodIter i)
    (cfg : Config) (rest : List IterInput) (c : Nat) (t : Int) (f : Nat) :
    runLoop cfg (i :: rest) c t f =
      ⟨(if fire_detected i.dets FIRE_CLASSES then Status.fireAlarm
          else Status.noFire) ::
          (runLoop cfg rest c (nextLast cfg i t) f).statuses,
       (if didAlert cfg i t then [i.now] else []) ++
          (runLoop cfg rest c (nextLast cfg i t) f).alerts,
       1 + (runLoop cfg rest c (nextLast cfg i t) f).frameReads,
       1 + (runLoop cfg rest c (nextLast cfg i t) f).inferences,
       (runLoop cfg rest c (nextLast cfg i t) f).backoffs,
       (runLoop cfg rest c (nextLast cfg i t) f).backoffSecs,
       (runLoop cfg rest c (nextLast cfg i t) f).opened,
       (runLoop cfg rest c (nextLast cfg i t) f).released,
       (runLoop cfg rest c (nextLast cfg i t) f).releaseOnNone,
       (runLoop cfg rest c (nextLast cfg i t) f).exit⟩ := by
  obtain ⟨h1, h2, h3⟩ := h
  simp [runLoop, h1, h2, h3, didAlert, nextLast]

lemma runLoop_cons_reopen {cfg : Config} {i : IterInput}
    (hc : cfg.source_configured = true) (h1 : i.capOpen = true)
    (h2 : i.stop = false) (h3 : i.readOk = false) (h4 : i.reopenOk = true)
    (rest : List IterInput) (c : Nat) (t : Int) (f : Nat) :
    runLoop cfg (i :: rest) c t f =
      ⟨Status.reconnecting :: (runLoop cfg rest f t (f + 1)).statuses,
       (runLoop cfg rest f t (f + 1)).alerts,
       1 + (runLoop cfg rest f t (f + 1)).frameReads,
       (runLoop cfg rest f t (f + 1)).inferences,
       1 + (runLoop cfg rest f t (f + 1)).backoffs,
       2 + (runLoop cfg rest f t (f + 1)).backoffSecs,
       f :: (runLoop cfg rest f t (f + 1)).opened,
       (runLoop cfg rest f t (f + 1)).released,
       (runLoop cfg rest f t (f + 1)).releaseOnNone,
       (runLoop cfg rest f t (f + 1)).exit⟩ := by
  simp [runLoop, h1, h2, h3, init_camera, hc, h4]

lemma runLoop_cons_reopen_fail {cfg : Config} {i : IterInput}
    (hc : cfg.source_configured = true) (h1 : i.capOpen = true)
    (h2 : i.stop = false) (h3 : i.readOk = false) (h4 : i.reopenOk = false)
    (rest : List IterInput) (c : Nat) (t : Int) (f : Nat) :
    runLoop cfg (i :: rest) c t f =
      ⟨[Status.reconnecting, Status.initFailed], [], 1, 0, 1, 2, [], [],
       true, ExitKind.crashed⟩ := by
  simp [runLoop, h1, h2, h3, init_camera, hc, h4]

/-- On a script of good iterations, the loop just processes every
iteration: no backoff, no reconnect/error/stop status, one read and one
inference per iteration, no extra handle opened. -/
lemma runLoop_allGood (cfg : Config) :
    ∀ (L : List IterInput), (∀ i ∈ L, goodIter i) →
    ∀ (c : Nat) (t : Int) (f : Nat),
      (runLoop cfg L c t f).exit = ExitKind.outOfScript ∧
      (runLoop cfg L c t f).backoffs = 0 ∧
      (runLoop cfg L c t f).backoffSecs = 0 ∧
      (runLoop cfg L c t f).statuses.count Status.reconnecting = 0 ∧
      Status.initFailed ∉ (runLoop cfg L c t f).statuses ∧
      Status.stopped ∉ (runLoop cfg L c t f).statuses ∧
      (runLoop cfg L c t f).frameReads = L.length ∧
      (runLoop cfg L c t f).inferences = L.length ∧
      (runLoop cfg L c t f).opened = [] := by
  intro L
  induction L with
  | nil => intro _ c t f; simp [runLoop]
  | cons i rest ih =>
    intro hL c t f
    rw [runLoop_cons_good (hL i (List.mem_cons_self i rest))]
    obtain ⟨e1, e2, e3, e4, e5, e6, e7, e8, e9⟩ :=
      ih (fun j hj => hL j (List.mem_cons_of_mem i hj)) c (nextLast cfg i t) f
    refine ⟨e1, e2, e3, ?_, ?_, ?_, ?_, ?_, e9⟩
    · simp only [List.count_cons, e4]
      cases fire_detected i.dets FIRE_CLASSES <;> simp
    · simp only [List.mem_cons, not_or]
      exact ⟨by cases fire_detected i.dets FIRE_CLASSES <;> simp, e5⟩
    · simp only [List.mem_cons, not_or]
      exact ⟨by cases fire_detected i.dets FIRE_CLASSES <;> simp, e6⟩
    · simp only [List.length_cons, e7]
      omega
    · simp only [List.length_cons, e8]
      omega

/-- C4: if one frame read fails and the reopen succeeds, the loop does
not terminate: it performs exactly one 2-second backoff-reopen cycle,
surfaces only the transient reconnecting status (never the camera-init
error or the stopped message), and resumes reading and inferring on
every subsequent iteration. -/
theorem read_failure_recovery (cfg : Config)
    (hc : cfg.source_configured = true)
    (pre : List IterInput) (bad : IterInput) (rest : List IterInput)
    (hpre : ∀ i ∈ pre, goodIter i) (hrest : ∀ i ∈ rest, goodIter i)
    (hcap : bad.capOpen = true) (hstop : bad.stop = false)
    (hread : bad.readOk = false) (hre : bad.reopenOk = true) :
    ∀ (c : Nat) (t : Int) (f : Nat),
    (runLoop cfg (pre ++ bad :: rest) c t f).exit = ExitKind.outOfScript ∧
    (runLoop cfg (pre ++ bad :: rest) c t f).backoffs = 1 ∧
    (runLoop cfg (pre ++ bad :: rest) c t f).backoffSecs = 2 ∧
    (runLoop cfg (pre ++ bad :: rest) c t f).statuses.count
      Status.reconnecting = 1 ∧
    Status.initFailed ∉ (runLoop cfg (pre ++ bad :: rest) c t f).statuses ∧
    Status.stopped ∉ (runLoop cfg (pre ++ bad :: rest) c t f).statuses ∧
    (runLoop cfg (pre ++ bad :: rest) c t f).frameReads
      = pre.length + 1 + rest.length ∧
    (runLoop cfg (pre ++ bad :: rest) c t f).inferences
      = pre.length + rest.length := by
  induction pre with
  | nil =>
    intro c t f
    simp only [List.nil_append]
    rw [runLoop_cons_reopen hc hcap hstop hread hre]
    obtain ⟨e1, e2, e3, e4, e5, e6, e7, e8, _⟩ :=
      runLoop_allGood cfg rest hrest f t (f + 1)
    refine ⟨e1, ?_, ?_, ?_, ?_, ?_, ?_, ?_⟩
    · simp only [e2]
    · simp only [e3]
    · simp only [List.count_cons, e4]
      simp
    · simp [e5]
    · simp [e6]
    · simp only [e7, List.length_nil]
    · simp only [e8, List.length_nil]
      omega
  | cons i pres ih =>
    intro c t f
    simp only [List.cons_append]
    rw [runLoop_cons_good (hpre i (List.mem_cons_self i pres))]
    obtain ⟨e1, e2, e3, e4, e5, e6, e7, e8⟩ :=
      ih (fun j hj => hpre j (List.mem_cons_of_mem i hj)) c (nextLast cfg i t) f
    refine ⟨e1, e2, e3, ?_, ?_, ?_, ?_, ?_⟩
    · simp only [List.count_cons, e4]
      cases fire_detected i.dets FIRE_CLASSES <;> simp
    · simp only [List.mem_cons, not_or]
      exact ⟨by cases fire_detected i.dets FIRE_CLASSES <;> simp, e5⟩
    · simp only [List.mem_cons, not_or]
      exact ⟨by cases fire_detected i.dets FIRE_CLASSES <;> simp, e6⟩
    · simp only [e7, List.length_cons]
      omega
    · simp only [e8, List.length_cons]
      omega

/-- Closed witness for `read_failure_recovery`: one good iteration, a
failed read with a successful reopen, then one more good iteration. -/
theorem read_failure_recovery_witness :
    (runLoop ⟨true, 1/2, true, 60⟩
        ([⟨false, true, true, true, [], 10⟩] ++
          ⟨false, true, false, true, [], 20⟩ ::
            [⟨false, true, true, true, [], 30⟩]) 0 0 1).exit
      = ExitKind.outOfScript ∧
    (runLoop ⟨true, 1/2, true, 60⟩
        ([⟨false, true, true, true, [], 10⟩] ++
          ⟨false, true, false, true, [], 20⟩ ::
            [⟨false, true, true, true, [], 30⟩]) 0 0 1).backoffs = 1 := by
  obtain ⟨e1, e2, _⟩ :=
    read_failure_recovery ⟨true, 1/2, true, 60⟩ rfl
      [⟨false, true, true, true, [], 10⟩] ⟨false, true, false, true, [], 20⟩
      [⟨false, true, true, true, [], 30⟩] (by decide) (by decide)
      rfl rfl rfl rfl 0 0 1
  exact ⟨e1, e2⟩

/-- When model load and camera init succeed and stop is not already
set, the program is the loop run with `last_alert_time = 0`, handle `0`
and fresh counter `1`. -/
lemma runProgram_enters {cfg : Config} (hc : cfg.source_configured = true)
    (script : List IterInput) :
    runProgram cfg true true false script =
      ⟨(runLoop cfg script 0 0 1).statuses,
       (runLoop cfg script 0 0 1).alerts,
       (runLoop cfg script 0 0 1).frameReads,
       (runLoop cfg script 0 0 1).inferences,
       (runLoop cfg script 0 0 1).backoffs,
       (runLoop cfg script 0 0 1).backoffSecs,
       0 :: (runLoop cfg script 0 0 1).opened,
       (runLoop cfg script 0 0 1).released,
       (runLoop cfg script 0 0 1).releaseOnNone,
       true, some (runLoop cfg script 0 0 1).exit⟩ := by
  simp [runProgram, load_model, init_camera, hc]

/-- After any good prefix, a read failure whose reopen also fails makes
the loop break and crash on the None release: no iteration of the tail
runs. -/
lemma runLoop_reopen_fail_crashes (cfg : Config)
    (hc : cfg.source_configured = true)
    (pre : List IterInput) (bad : IterInput) (rest : List IterInput)
    (hpre : ∀ i ∈ pre, goodIter i)
    (hcap : bad.capOpen = true) (hstop : bad.stop = false)
    (hread : bad.readOk = false) (hre : bad.reopenOk = false) :
    ∀ (c : Nat) (t : Int) (f : Nat),
    (runLoop cfg (pre ++ bad :: rest) c t f).exit = ExitKind.crashed ∧
    Status.initFailed ∈ (runLoop cfg (pre ++ bad :: rest) c t f).statuses ∧
    Status.stopped ∉ (runLoop cfg (pre ++ bad :: rest) c t f).statuses ∧
    (runLoop cfg (pre ++ bad :: rest) c t f).frameReads = pre.length + 1 ∧
    (runLoop cfg (pre ++ bad :: rest) c t f).releaseOnNone = true := by
  induction pre with
  | nil =>
    intro c t f
    simp only [List.nil_append]
    rw [runLoop_cons_reopen_fail hc hcap hstop hread hre]
    refine ⟨rfl, by simp, by simp, rfl, rfl⟩
  | cons i pres ih =>
    intro c t f
    simp only [List.cons_append]
    rw [runLoop_cons_good (hpre i (List.mem_cons_self i pres))]
    obtain ⟨e1, e2, e3, e4, e5⟩ :=
      ih (fun j hj => hpre j (List.mem_cons_of_mem i hj)) c (nextLast cfg i t) f
    refine ⟨e1, ?_, ?_, ?_, e5⟩
    · simp only [List.mem_cons]
      exact Or.inr e2
    · simp only [List.mem_cons, not_or]
      exact ⟨by cases fire_detected i.dets FIRE_CLASSES <;> simp, e3⟩
    · simp only [e4, List.length_cons]
      omega

/-- C5: if a frame read fails and the reopen also fails, the loop
terminates (the tail iterations never run, and the exit is the fatal
crash on the post-loop release), the camera-unavailable error is
surfaced to the user, and the normal "Detection stopped" message is
never emitted. -/
theorem reopen_failure_fatal (cfg : Config)
    (hc : cfg.source_configured = true)
    (pre : List IterInput) (bad : IterInput) (rest : List IterInput)
    (hpre : ∀ i ∈ pre, goodIter i)
    (hcap : bad.capOpen = true) (hstop : bad.stop = false)
    (hread : bad.readOk = false) (hre : bad.reopenOk = false) :
    (runProgram cfg true true false (pre ++ bad :: rest)).exitInfo
      = some ExitKind.crashed ∧
    Status.initFailed ∈
      (runProgram cfg true true false (pre ++ bad :: rest)).statuses ∧
    Status.stopped ∉
      (runProgram cfg true true false (pre ++ bad :: rest)).statuses ∧
    (runProgram cfg true true false (pre ++ bad :: rest)).frameReads
      = pre.length + 1 := by
  rw [runProgram_enters hc]
  obtain ⟨e1, e2, e3, e4, _⟩ :=
    runLoop_reopen_fail_crashes cfg hc pre bad rest hpre hcap hstop hread hre
      0 0 1
  exact ⟨by rw [e1], e2, e3, e4⟩

/-- Closed witness for `reopen_failure_fatal`: a good iteration, then a
read failure whose reopen fails. -/
theorem reopen_failure_fatal_witness :
    (runProgram ⟨true, 1/2, true, 60⟩ true true false
        ([⟨false, true, true, true, [], 10⟩] ++
          ⟨false, true, false, false, [], 20⟩ ::
            [⟨false, true, true, true, [], 30⟩])).exitInfo
      = some ExitKind.crashed ∧
    Status.initFailed ∈
      (runProgram ⟨true, 1/2, true, 60⟩ true true false
        ([⟨false, true, true, true, [], 10⟩] ++
          ⟨false, true, false, false, [], 20⟩ ::
            [⟨false, true, true, true, [], 30⟩])).statuses := by
  obtain ⟨e1, e2, _⟩ :=
    reopen_failure_fatal ⟨true, 1/2, true, 60⟩ rfl
      [⟨false, true, true, true, [], 10⟩] ⟨false, true, false, false, [], 20⟩
      [⟨false, true, true, true, [], 30⟩] (by decide) rfl rfl rfl rfl
  exact ⟨e1, e2⟩

/-- C7: for every configuration, camera outcome and environment script,
if the model fails to load then the load error is reported exactly once,
the detection loop is never entered, no frame is read and no inference
is run, and the program lands in the warning display state. -/
theorem model_load_failure_no_inference (cfg : Config) (openOk : Bool)
    (initialStop : Bool) (script : List IterInput) :
    (runProgram cfg false openOk initialStop script).loopEntered = false ∧
    (runProgram cfg false openOk initialStop script).inferences = 0 ∧
    (runProgram cfg false openOk initialStop script).frameReads = 0 ∧
    (runProgram cfg false openOk initialStop script).statuses.count
      Status.modelLoadError = 1 ∧
    Status.configWarning ∈
      (runProgram cfg false openOk initialStop script).statuses := by
  by_cases hsc : cfg.source_configured = true <;>
    cases openOk <;>
      simp [runProgram, load_model, init_camera, hsc]

/-- C8: the stop flag is observed only at the top of each iteration.
Every iteration before the stop completes in full (its read and its
inference both happen), the loop exits normally at the first iteration
whose stop flag is set, no read happens at or after that point, and the
result does not depend on anything the environment would have done
afterwards. -/
theorem stop_flag_latency (cfg : Config) (pre : List IterInput)
    (s : IterInput) (rest rest' : List IterInput)
    (hpre : ∀ i ∈ pre, goodIter i) (hs : s.stop = true) :
    ∀ (c : Nat) (t : Int) (f : Nat),
    (runLoop cfg (pre ++ s :: rest) c t f).exit = ExitKind.exited ∧
    (runLoop cfg (pre ++ s :: rest) c t f).frameReads = pre.length ∧
    (runLoop cfg (pre ++ s :: rest) c t f).inferences = pre.length ∧
    Status.stopped ∈ (runLoop cfg (pre ++ s :: rest) c t f).statuses ∧
    runLoop cfg (pre ++ s :: rest) c t f
      = runLoop cfg (pre ++ s :: rest') c t f := by
  induction pre with
  | nil =>
    intro c t f
    simp only [List.nil_append]
    rw [runLoop_cons_exit (Or.inr hs), runLoop_cons_exit (Or.inr hs)]
    exact ⟨rfl, rfl, rfl, by simp, rfl⟩
  | cons i pres ih =>
    intro c t f
    simp only [List.cons_append]
    rw [runLoop_cons_good (hpre i (List.mem_cons_self i pres)),
      runLoop_cons_good (hpre i (List.mem_cons_self i pres))]
    obtain ⟨e1, e2, e3, e4, e5⟩ :=
      ih (fun j hj => hpre j (List.mem_cons_of_mem i hj)) c (nextLast cfg i t) f
    refine ⟨e1, ?_, ?_, ?_, ?_⟩
    · simp only [e2, List.length_cons]
      omega
    · simp only [e3, List.length_cons]
      omega
    · simp only [List.mem_cons]
      exact Or.inr e4
    · rw [e5]

/-- Closed witness for `stop_flag_latency`: two good iterations, then a
stop; the environment's planned post-stop iterations are irrelevant. -/
theorem stop_flag_latency_witness :
    (runLoop ⟨true, 1/2, true, 60⟩
        ([⟨false, true, true, true, [], 10⟩, ⟨false, true, true, true, [], 20⟩]
          ++ ⟨true, true, true, true, [], 30⟩ ::
            [⟨false, true, true, true, [], 40⟩]) 0 0 1).frameReads = 2 ∧
    runLoop ⟨true, 1/2, true, 60⟩
        ([⟨false, true, true, true, [], 10⟩, ⟨false, true, true, true, [], 20⟩]
          ++ ⟨true, true, true, true, [], 30⟩ ::
            [⟨false, true, true, true, [], 40⟩]) 0 0 1
      = runLoop ⟨true, 1/2, true, 60⟩
        ([⟨false, true, true, true, [], 10⟩, ⟨false, true, true, true, [], 20⟩]
          ++ ⟨true, true, true, true, [], 30⟩ :: []) 0 0 1 := by
  obtain ⟨_, e2, _, _, e5⟩ :=
    stop_flag_latency ⟨true, 1/2, true, 60⟩
      [⟨false, true, true, true, [], 10⟩, ⟨false, true, true, true, [], 20⟩]
      ⟨true, true, true, true, [], 30⟩ [⟨false, true, true, true, [], 40⟩] []
      (by decide) rfl 0 0 1
  exact ⟨e2, e5⟩

/-- Invariant behind the cooldown property: every alert dispatched by a
loop entered with `last_alert_time = t` is strictly more than the
cooldown after `t`, and successive alerts are pairwise separated by more
than the cooldown. -/
lemma runLoop_alerts_gap (cfg : Config) (hcd : 0 ≤ cfg.alert_cooldown) :
    ∀ (L : List IterInput) (c : Nat) (t : Int) (f : Nat),
      (∀ a ∈ (runLoop cfg L c t f).alerts, a - t > cfg.alert_cooldown) ∧
      (runLoop cfg L c t f).alerts.Pairwise
        (fun t1 t2 => t2 - t1 > cfg.alert_cooldown) := by
  intro L
  induction L with
  | nil => intro c t f; simp [runLoop]
  | cons i rest ih =>
    intro c t f
    by_cases h1 : i.capOpen = true
    case neg =>
      rw [runLoop_cons_exit (Or.inl (by simpa using h1))]
      simp
    case pos =>
    by_cases h2 : i.stop = true
    case pos =>
      rw [runLoop_cons_exit (Or.inr h2)]
      simp
    case neg =>
    have hs : i.stop = false := by simpa using h2
    by_cases h3 : i.readOk = true
    case pos =>
      have hg : goodIter i := ⟨h1, hs, h3⟩
      rw [runLoop_cons_good hg]
      by_cases hd : didAlert cfg i t = true
      · have hfst : (maybe_alert (fire_detected i.dets FIRE_CLASSES) i.now
            ⟨t, cfg.alert_cooldown, cfg.enable_alerts⟩).1 = true := hd
        obtain ⟨hgt, hlast⟩ := maybe_alert_fst_true hfst
        have hgt' : i.now - t > cfg.alert_cooldown := hgt
        have hnl : nextLast cfg i t = i.now := hlast
        rw [hnl]
        obtain ⟨ih1, ih2⟩ := ih c i.now f
        constructor
        · intro a ha
          simp only [hd, if_true, List.mem_append, List.mem_singleton] at ha
          rcases ha with ha | ha
          · omega
          · have := ih1 a ha
            omega
        · simp only [hd, if_true, List.singleton_append]
          exact List.Pairwise.cons (fun b hb => ih1 b hb) ih2
      · have hdd : didAlert cfg i t = false := by simpa using hd
        have hsnd := maybe_alert_fst_false hdd
        have hnl : nextLast cfg i t = t := by
          unfold nextLast
          rw [hsnd]
        rw [hnl]
        obtain ⟨ih1, ih2⟩ := ih c t f
        constructor
        · intro a ha
          simp only [hdd, if_false, List.nil_append] at ha
          exact ih1 a ha
        · simpa only [hdd, if_false, List.nil_append] using ih2
    case neg =>
      have hr : i.readOk = false := by simpa using h3
      rcases hcam : init_camera cfg i.reopenOk f with ⟨cam, msgs⟩
      cases cam with
      | none =>
        have heq : runLoop cfg (i :: rest) c t f =
            ⟨Status.reconnecting :: msgs, [], 1, 0, 1, 2, [], [], true,
             ExitKind.crashed⟩ := by
          simp [runLoop, h1, hs, hr, hcam]
        rw [heq]
        simp
      | some h =>
        have heq : runLoop cfg (i :: rest) c t f =
            ⟨Status.reconnecting ::
               (msgs ++ (runLoop cfg rest h t (f + 1)).statuses),
             (runLoop cfg rest h t (f + 1)).alerts,
             1 + (runLoop cfg rest h t (f + 1)).frameReads,
             (runLoop cfg rest h t (f + 1)).inferences,
             1 + (runLoop cfg rest h t (f + 1)).backoffs,
             2 + (runLoop cfg rest h t (f + 1)).backoffSecs,
             h :: (runLoop cfg rest h t (f + 1)).opened,
             (runLoop cfg rest h t (f + 1)).released,
             (runLoop cfg rest h t (f + 1)).releaseOnNone,
             (runLoop cfg rest h t (f + 1)).exit⟩ := by
          simp [runLoop, h1, hs, hr, hcam]
        rw [heq]
        exact ih h t (f + 1)

/-- C1: with alerts enabled (and the cooldown non-negative, as the UI
guarantees: the sidebar range is 60-300 seconds), any two alerts
dispatched during a run are separated by strictly more than
`cooldown_seconds`, measured at the dispatch timestamps (the
`current_time` at which each alert thread is started); in particular no
two alerts are closer together than the cooldown. -/
theorem cooldown_invariant (cfg : Config) (modelOk openOk initialStop : Bool)
    (script : List IterInput) (hen : cfg.enable_alerts = true)
    (hcd : 0 ≤ cfg.alert_cooldown) :
    (runProgram cfg modelOk openOk initialStop script).alerts.Pairwise
      (fun t1 t2 => t2 - t1 > cfg.alert_cooldown) := by
  have halt : (runProgram cfg modelOk openOk initialStop script).alerts = [] ∨
      (runProgram cfg modelOk openOk initialStop script).alerts
        = (runLoop cfg script 0 0 1).alerts := by
    by_cases hsc : cfg.source_configured = true <;>
      cases modelOk <;> cases openOk <;> cases initialStop <;>
        simp [runProgram, load_model, init_camera, hsc]
  rcases halt with h | h
  · rw [h]
    exact List.Pairwise.nil
  · rw [h]
    exact (runLoop_alerts_gap cfg hcd script 0 0 1).2

/-- Closed witness for `cooldown_invariant`: a run with two dispatched
alerts (at times 100 and 200 with a 60-second cooldown). -/
theorem cooldown_invariant_witness :
    (runProgram ⟨true, 1/2, true, 60⟩ true true false
        [⟨false, true, true, true, [⟨25, 9/10, (0, 0, 4, 4)⟩], 100⟩,
         ⟨false, true, true, true, [⟨25, 9/10, (0, 0, 4, 4)⟩], 130⟩,
         ⟨false, true, true, true, [⟨25, 9/10, (0, 0, 4, 4)⟩], 200⟩]).alerts
      = [100, 200] ∧
    (runProgram ⟨true, 1/2, true, 60⟩ true true false
        [⟨false, true, true, true, [⟨25, 9/10, (0, 0, 4, 4)⟩], 100⟩,
         ⟨false, true, true, true, [⟨25, 9/10, (0, 0, 4, 4)⟩], 130⟩,
         ⟨false, true, true, true, [⟨25, 9/10, (0, 0, 4, 4)⟩], 200⟩]).alerts.Pairwise
      (fun t1 t2 => t2 - t1 >
        (Config.mk true (1/2) true 60).alert_cooldown) :=
  ⟨by decide,
   cooldown_invariant ⟨true, 1/2, true, 60⟩ true true false
     [⟨false, true, true, true, [⟨25, 9/10, (0, 0, 4, 4)⟩], 100⟩,
      ⟨false, true, true, true, [⟨25, 9/10, (0, 0, 4, 4)⟩], 130⟩,
      ⟨false, true, true, true, [⟨25, 9/10, (0, 0, 4, 4)⟩], 200⟩]
     rfl (by decide)⟩

/-- Good iterations on which no fire is detected dispatch nothing and
leave `last_alert_time` unchanged, so they do not affect the alert
stream of what follows. -/
lemma runLoop_nofire_alerts (cfg : Config) :
    ∀ (pre : List IterInput),
    (∀ i ∈ pre, goodIter i ∧ fire_detected i.dets FIRE_CLASSES = false) →
    ∀ (X : List IterInput) (c : Nat) (t : Int) (f : Nat),
      (runLoop cfg (pre ++ X) c t f).alerts
        = (runLoop cfg X c t f).alerts := by
  intro pre
  induction pre with
  | nil => intro _ X c t f; rfl
  | cons i pres ih =>
    intro hp X c t f
    have hgi := (hp i (List.mem_cons_self i pres)).1
    have hnf := (hp i (List.mem_cons_self i pres)).2
    have hda : didAlert cfg i t = false := by
      simp [didAlert, hnf, maybe_alert]
    have hnl : nextLast cfg i t = t := by
      simp [nextLast, hnf, maybe_alert]
    simp only [List.cons_append]
    rw [runLoop_cons_good hgi]
    simp only [hda, if_false, List.nil_append, hnl]
    exact ih (fun j hj => hp j (List.mem_cons_of_mem i hj)) X c t f

/-- C10: the session starts with `last_alert_time = 0`, so if the first
iteration on which fire is detected happens at a current time greater
than the cooldown (with alerts enabled), that very iteration dispatches
the session's first alert — there is no initial cooldown wait. -/
theorem first_alert_immediate (cfg : Config)
    (pre : List IterInput) (fi : IterInput) (rest : List IterInput)
    (hc : cfg.source_configured = true) (hen : cfg.enable_alerts = true)
    (hpre : ∀ i ∈ pre,
      goodIter i ∧ fire_detected i.dets FIRE_CLASSES = false)
    (hfi : goodIter fi)
    (hfire : fire_detected fi.dets FIRE_CLASSES = true)
    (hnow : fi.now > cfg.alert_cooldown) :
    (runProgram cfg true true false (pre ++ fi :: rest)).alerts.head?
      = some fi.now := by
  rw [runProgram_enters hc]
  show (runLoop cfg (pre ++ fi :: rest) 0 0 1).alerts.head? = some fi.now
  rw [runLoop_nofire_alerts cfg pre hpre (fi :: rest) 0 0 1,
    runLoop_cons_good hfi]
  have hda : didAlert cfg fi 0 = true := by
    unfold didAlert
    rw [hfire, maybe_alert_fires hen (by simpa using hnow)]
  show ((if didAlert cfg fi 0 then [fi.now] else []) ++
      (runLoop cfg rest 0 (nextLast cfg fi 0) 1).alerts).head? = some fi.now
  rw [hda]
  simp

/-- Closed witness for `first_alert_immediate`: one no-fire iteration,
then a first fire at time 100 with a 60-second cooldown. -/
theorem first_alert_immediate_witness :
    (runProgram ⟨true, 1/2, true, 60⟩ true true false
        ([⟨false, true, true, true, [], 50⟩] ++
          ⟨false, true, true, true, [⟨26, 9/10, (0, 0, 4, 4)⟩], 100⟩ ::
            [⟨false, true, true, true, [], 130⟩])).alerts.head?
      = some 100 :=
  first_alert_immediate ⟨true, 1/2, true, 60⟩
    [⟨false, true, true, true, [], 50⟩]
    ⟨false, true, true, true, [⟨26, 9/10, (0, 0, 4, 4)⟩], 100⟩
    [⟨false, true, true, true, [], 130⟩]
    rfl rfl (by decide) (by decide) (by decide) (by decide)

/-- C6 fails on the code: in a run whose read glitch recovers, two
handles are opened but only the second is ever released (the pre-glitch
handle leaks, released zero times); and in a run whose reopen fails,
`cap.release()` is attempted on an absent handle (`cap` is `None`,
raising `AttributeError`), with no handle released at all. -/
theorem release_discipline_violated :
    (runProgram ⟨true, 1/2, true, 60⟩ true true false
        [⟨false, true, false, true, [], 10⟩,
         ⟨true, true, true, true, [], 20⟩]).opened = [0, 1] ∧
    (runProgram ⟨true, 1/2, true, 60⟩ true true false
        [⟨false, true, false, true, [], 10⟩,
         ⟨true, true, true, true, [], 20⟩]).released = [1] ∧
    (runProgram ⟨true, 1/2, true, 60⟩ true true false
        [⟨false, true, false, false, [], 10⟩]).opened = [0] ∧
    (runProgram ⟨true, 1/2, true, 60⟩ true true false
        [⟨false, true, false, false, [], 10⟩]).released = [] ∧
    (runProgram ⟨true, 1/2, true, 60⟩ true true false
        [⟨false, true, false, false, [], 10⟩]).releaseOnNone = true := by
  decide
